import Mathlib

/-!
Shallow embedding of the circle-animation system in `src/js/script.js`.

Randomness: every call to `Math.random()` in the source is modelled by an
explicit rational draw `r : ℚ` with `0 ≤ r < 1`, passed as an argument.
DOM state (the `activeCircles` map, attached child elements, registered
`onfinish` callbacks) is modelled by the explicit record `SysState`.
Observable side effects (console logging, element creation, animation
start, attach/detach) are recorded in an effect trace (`List Effect`).
-/

namespace CircleAnim

/-- `ANIMATION_CONFIG` (script.js lines 2-9).  Only the numeric tunables are
needed by the claims; the colour and blur strings do not influence control
flow and are omitted from the model. -/
structure Config where
  maxCirclesPerContainer : ℕ
  sizeMin : ℤ
  sizeMax : ℤ
  durMin : ℤ
  durMax : ℤ
  offsetMultiplier : ℤ

def ANIMATION_CONFIG : Config :=
  { maxCirclesPerContainer := 5
    sizeMin := 10
    sizeMax := 100
    durMin := 5
    durMax := 10
    offsetMultiplier := 2 }

/-- `getRandomInRange` (script.js line 12):
`(min, max) => Math.floor(Math.random() * (max - min + 1)) + min`,
with the `Math.random()` result passed as `r`. -/
def getRandomInRange (min max : ℤ) (r : ℚ) : ℤ :=
  ⌊r * ((max : ℚ) - (min : ℚ) + 1)⌋ + min

/-- A DOM container handle, exposing `clientWidth` / `clientHeight`
(non-negative integers in the DOM). -/
structure Container where
  clientWidth : ℕ
  clientHeight : ℕ
deriving DecidableEq

/-- A 2-D position in pixels. -/
structure Pos where
  x : ℤ
  y : ℤ
deriving DecidableEq

abbrev ContainerId := ℕ
abbrev CircleId := ℕ

/-- Observable side effects of the script, in program order. -/
inductive Effect where
  | logWarn (msg : String)
  | logError (msg : String)
  | createElement (id : CircleId)
  | addToActiveSet (c : ContainerId) (id : CircleId)
  | startAnimation (id : CircleId)
  | appendChild (c : ContainerId) (id : CircleId)
  | removeElement (id : CircleId)
  | removeFromActiveSet (c : ContainerId) (id : CircleId)
deriving DecidableEq

/-- `getRandomPosition` (script.js lines 15-38).  The `container` argument is
`none` when the JS value is null/undefined; a zero `clientWidth` or
`clientHeight` is falsy in JS, hence the dimension guard.  `rEdge` models the
`Math.random()` used for the edge choice, `rCoord` the one consumed by the
single `getRandomInRange` call of the selected branch.  Returns the position
together with the emitted console diagnostics. -/
def getRandomPosition (container : Option Container) (size : ℤ) (rEdge rCoord : ℚ) :
    Pos × List Effect :=
  match container with
  | none => (⟨0, 0⟩, [Effect.logWarn "Invalid container dimensions"])
  | some c =>
    if c.clientWidth = 0 ∨ c.clientHeight = 0 then
      (⟨0, 0⟩, [Effect.logWarn "Invalid container dimensions"])
    else
      let edge : ℤ := ⌊rEdge * 4⌋
      let maxX : ℤ := (c.clientWidth : ℤ) - size
      let maxY : ℤ := (c.clientHeight : ℤ) - size
      let offset : ℤ := size * ANIMATION_CONFIG.offsetMultiplier
      if edge = 0 then (⟨getRandomInRange 0 maxX rCoord, -offset⟩, [])
      else if edge = 1 then (⟨(c.clientWidth : ℤ) + offset, getRandomInRange 0 maxY rCoord⟩, [])
      else if edge = 2 then (⟨getRandomInRange 0 maxX rCoord, (c.clientHeight : ℤ) + offset⟩, [])
      else if edge = 3 then (⟨-offset, getRandomInRange 0 maxY rCoord⟩, [])
      else (⟨0, 0⟩, [])

/-- Range lemma for the utility: a draw in `[0,1)` lands in `[min, max]`
whenever `min ≤ max`. -/
theorem getRandomInRange_mem (min max : ℤ) (r : ℚ) (hmm : min ≤ max)
    (h0 : 0 ≤ r) (h1 : r < 1) :
    min ≤ getRandomInRange min max r ∧ getRandomInRange min max r ≤ max := by
  unfold getRandomInRange
  have hL : (0 : ℚ) < (max : ℚ) - (min : ℚ) + 1 := by
    have : (min : ℚ) ≤ (max : ℚ) := by exact_mod_cast hmm
    linarith
  constructor
  · have hfl : (0 : ℤ) ≤ ⌊r * ((max : ℚ) - (min : ℚ) + 1)⌋ :=
      Int.floor_nonneg.mpr (mul_nonneg h0 (le_of_lt hL))
    omega
  · have hlt : r * ((max : ℚ) - (min : ℚ) + 1) < ((max - min + 1 : ℤ) : ℚ) := by
      push_cast
      nlinarith
    have := Int.floor_lt.mpr hlt
    omega

/-- The edge selector `Math.floor(Math.random() * 4)` lands in `{0,1,2,3}`. -/
theorem edge_mem (r : ℚ) (h0 : 0 ≤ r) (h1 : r < 1) :
    0 ≤ ⌊r * 4⌋ ∧ ⌊r * 4⌋ ≤ 3 := by
  constructor
  · exact Int.floor_nonneg.mpr (by nlinarith)
  · have hlt : r * 4 < ((4 : ℤ) : ℚ) := by push_cast; nlinarith
    have := Int.floor_lt.mpr hlt
    omega

/-- The mutable state of the system: the `activeCircles` map (script.js line
168, a `Map` from container to `Set` of circle elements, so a key may be
absent — `none` — or present with a set), the child elements currently
attached to each container (`dom`), the `onfinish` callbacks registered but
not yet fired (`pending`, each tied to the container it will respawn into),
and a counter producing fresh identities for `document.createElement`. -/
structure SysState where
  active : ContainerId → Option (Finset CircleId)
  dom : ContainerId → Finset CircleId
  pending : Finset (ContainerId × CircleId)
  nextId : CircleId

/-- The state at `initialize` entry (script.js line 168): an empty map, no
circles attached anywhere, no callbacks registered. -/
def initState : SysState :=
  { active := fun _ => none
    dom := fun _ => ∅
    pending := ∅
    nextId := 0 }

/-- The six `Math.random()` draws consumed by one `createRandomCircle` call:
the size, the edge and coordinate draws of the start position, those of the
end position, and the duration. -/
structure SpawnDraws where
  rSize : ℚ
  rEdge1 : ℚ
  rCoord1 : ℚ
  rEdge2 : ℚ
  rCoord2 : ℚ
  rDur : ℚ

/-- The data of one created circle element. -/
structure Circle where
  id : CircleId
  size : ℤ
  startPosition : Pos
  endPosition : Pos
  duration : ℤ
deriving DecidableEq

/-- The population guard of script.js line 48:
`activeCircles.get(containerElement)?.size >= ANIMATION_CONFIG.maxCirclesPerContainer`.
When the map has no entry for the container, the JS comparison is
`undefined >= 5`, which is false. -/
def capReached (s : SysState) (c : ContainerId) : Bool :=
  match s.active c with
  | some t => decide (ANIMATION_CONFIG.maxCirclesPerContainer ≤ t.card)
  | none => false

/-- `createRandomCircle` (script.js lines 41-98).  `dims` gives each
container's current dimensions; `containerElement` is `none` for a
null/undefined argument.  Returns the new state, the created circle (if
any), and the effect trace in source order: null guard (42-45), population
guard (48-50), element creation (52), size and positions (53-55, emitting
any dimension warnings), duration (56), registration in the active set
(72-75), animation start (78-88), `onfinish` registration (91-95, modelled
by `pending`), and `appendChild` (97). -/
def createRandomCircle (dims : ContainerId → Container) (containerElement : Option ContainerId)
    (s : SysState) (d : SpawnDraws) : SysState × Option Circle × List Effect :=
  match containerElement with
  | none => (s, none, [Effect.logError "Container element is null or undefined"])
  | some c =>
    if capReached s c then (s, none, [])
    else
      let circleId := s.nextId
      let size := getRandomInRange ANIMATION_CONFIG.sizeMin ANIMATION_CONFIG.sizeMax d.rSize
      let startRes := getRandomPosition (some (dims c)) size d.rEdge1 d.rCoord1
      let endRes := getRandomPosition (some (dims c)) size d.rEdge2 d.rCoord2
      let duration := getRandomInRange ANIMATION_CONFIG.durMin ANIMATION_CONFIG.durMax d.rDur * 1000
      let s1 : SysState :=
        { active := fun c2 => if c2 = c then some (insert circleId ((s.active c).getD ∅)) else s.active c2
          dom := fun c2 => if c2 = c then insert circleId (s.dom c2) else s.dom c2
          pending := insert (c, circleId) s.pending
          nextId := s.nextId + 1 }
      (s1, some ⟨circleId, size, startRes.1, endRes.1, duration⟩,
        Effect.createElement circleId :: startRes.2 ++ endRes.2 ++
          [Effect.addToActiveSet c circleId, Effect.startAnimation circleId,
           Effect.appendChild c circleId])

/-- The body of the registered `animation.onfinish` callback (script.js lines
91-95): `circleElement.remove()`, then
`activeCircles.get(containerElement)?.delete(circleElement)` (a no-op when
the map entry is absent), then `createRandomCircle` for the same container. -/
def animationOnFinish (dims : ContainerId → Container) (c : ContainerId) (id : CircleId)
    (s : SysState) (d : SpawnDraws) : SysState × Option Circle × List Effect :=
  let s1 : SysState :=
    { active := fun c2 => if c2 = c then (s.active c2).map (fun t => t.erase id) else s.active c2
      dom := fun c2 => if c2 = c then (s.dom c2).erase id else s.dom c2
      pending := s.pending
      nextId := s.nextId }
  let res := createRandomCircle dims (some c) s1 d
  (res.1, res.2.1, Effect.removeElement id :: Effect.removeFromActiveSet c id :: res.2.2)

/-- The `for` loop of script.js lines 108-110, spawning once per element of
`ds`. -/
def spawnLoop (dims : ContainerId → Container) (containerElement : Option ContainerId)
    (s : SysState) (ds : List SpawnDraws) : SysState × List Effect :=
  match ds with
  | [] => (s, [])
  | d :: rest =>
    let res := createRandomCircle dims containerElement s d
    let res2 := spawnLoop dims containerElement res.1 rest
    (res2.1, res.2.2 ++ res2.2)

/-- `createRandomCircles` (script.js lines 101-111): draw
`numberOfCircles ∈ [1, maxCirclesPerContainer]` from `rCount`, then invoke
`createRandomCircle` that many times, the i-th call consuming draws `ds i`. -/
def createRandomCircles (dims : ContainerId → Container) (containerElement : Option ContainerId)
    (s : SysState) (rCount : ℚ) (ds : ℕ → SpawnDraws) : SysState × List Effect :=
  match containerElement with
  | none => (s, [Effect.logError "Container element not found"])
  | some c =>
    let numberOfCircles := getRandomInRange 1 (ANIMATION_CONFIG.maxCirclesPerContainer : ℤ) rCount
    spawnLoop dims (some c) s ((List.range numberOfCircles.toNat).map ds)

/-- The state after the clearing phase of the reset (script.js lines
194-195): every element of the old active set `t` detached from container
`c`'s display, and `c`'s map entry replaced by a fresh empty `Set`. -/
def clearContainer (c : ContainerId) (t : Finset CircleId) (s : SysState) : SysState :=
  { active := fun c2 => if c2 = c then some ∅ else s.active c2
    dom := fun c2 => if c2 = c then s.dom c2 \ t else s.dom c2
    pending := s.pending
    nextId := s.nextId }

/-- The per-container body of the resize listener (script.js lines 193-197):
if the container is tracked (`activeCircles.has`), remove every circle
element of its active set from the display, replace the entry with a fresh
empty `Set`, and re-invoke `createRandomCircles`.  Registered `onfinish`
callbacks are not cancelled.  Untracked containers are skipped. -/
def resetContainer (dims : ContainerId → Container) (c : ContainerId) (s : SysState)
    (rCount : ℚ) (ds : ℕ → SpawnDraws) : SysState × List Effect :=
  match s.active c with
  | none => (s, [])
  | some t =>
    let res := createRandomCircles dims (some c) (clearContainer c t s) rCount ds
    (res.1, (t.sort (fun a b => a ≤ b)).map Effect.removeElement ++ res.2)

/-- The resize listener of script.js lines 191-199: iterate over the
container list (a `none` entry is a selector that matched nothing and is
skipped by the `container &&` guard), resetting each tracked container.
`rc`/`ds` supply the random draws consumed while reseeding container `c`. -/
def handleResize (dims : ContainerId → Container) (containers : List (Option ContainerId))
    (s : SysState) (rc : ContainerId → ℚ) (ds : ContainerId → ℕ → SpawnDraws) : SysState :=
  containers.foldl
    (fun acc oc =>
      match oc with
      | none => acc
      | some c => (resetContainer dims c acc (rc c) (ds c)).1)
    s

/-- The states of `activeCircles` (and the attached elements and pending
callbacks) reachable from `initialize`'s fresh map by any interleaving of
spawns, initial/reset seedings, animation completions (which may only fire
for a registered, unfired callback, which they consume), and resize resets. -/
inductive Reachable (dims : ContainerId → Container) : SysState → Prop where
  | init : Reachable dims initState
  | spawn (s : SysState) (co : Option ContainerId) (d : SpawnDraws) :
      Reachable dims s → Reachable dims (createRandomCircle dims co s d).1
  | seed (s : SysState) (co : Option ContainerId) (rCount : ℚ) (ds : ℕ → SpawnDraws) :
      Reachable dims s → Reachable dims (createRandomCircles dims co s rCount ds).1
  | finish (s : SysState) (c : ContainerId) (id : CircleId) (d : SpawnDraws) :
      Reachable dims s → (c, id) ∈ s.pending →
      Reachable dims
        (animationOnFinish dims c id { s with pending := s.pending.erase (c, id) } d).1
  | resize (s : SysState) (containers : List (Option ContainerId)) (rc : ContainerId → ℚ)
      (ds : ContainerId → ℕ → SpawnDraws) :
      Reachable dims s → Reachable dims (handleResize dims containers s rc ds)

/-- The number of circles the `activeCircles` map currently tracks for a
container (`0` when the map has no entry). -/
def activeCount (s : SysState) (c : ContainerId) : ℕ :=
  ((s.active c).getD ∅).card

theorem card_getD_active (s : SysState) (c : ContainerId) :
    ((s.active c).getD ∅).card = activeCount s c := rfl

theorem activeCount_some {s : SysState} {c : ContainerId} {t : Finset CircleId}
    (h : s.active c = some t) : activeCount s c = t.card := by
  unfold activeCount
  rw [h]
  rfl

theorem capReached_eq_false_iff (s : SysState) (c : ContainerId) :
    capReached s c = false ↔ activeCount s c < ANIMATION_CONFIG.maxCirclesPerContainer := by
  unfold capReached activeCount
  cases h : s.active c <;> simp [h, ANIMATION_CONFIG]

theorem capReached_eq_true_iff (s : SysState) (c : ContainerId) :
    capReached s c = true ↔ ANIMATION_CONFIG.maxCirclesPerContainer ≤ activeCount s c := by
  unfold capReached activeCount
  cases h : s.active c <;> simp [h, ANIMATION_CONFIG]

theorem createRandomCircle_none (dims : ContainerId → Container) (s : SysState) (d : SpawnDraws) :
    createRandomCircle dims none s d =
      (s, none, [Effect.logError "Container element is null or undefined"]) := rfl

theorem createRandomCircle_cap {s : SysState} {c : ContainerId} (dims : ContainerId → Container)
    (d : SpawnDraws) (h : capReached s c = true) :
    createRandomCircle dims (some c) s d = (s, none, []) := by
  simp [createRandomCircle, h]

theorem spawn_active_apply {s : SysState} {c : ContainerId} (dims : ContainerId → Container)
    (d : SpawnDraws) (h : capReached s c = false) (c2 : ContainerId) :
    (createRandomCircle dims (some c) s d).1.active c2 =
      if c2 = c then some (insert s.nextId ((s.active c).getD ∅)) else s.active c2 := by
  simp [createRandomCircle, h]

theorem spawn_dom_apply {s : SysState} {c : ContainerId} (dims : ContainerId → Container)
    (d : SpawnDraws) (h : capReached s c = false) (c2 : ContainerId) :
    (createRandomCircle dims (some c) s d).1.dom c2 =
      if c2 = c then insert s.nextId (s.dom c2) else s.dom c2 := by
  simp [createRandomCircle, h]

theorem spawn_pending {s : SysState} {c : ContainerId} (dims : ContainerId → Container)
    (d : SpawnDraws) (h : capReached s c = false) :
    (createRandomCircle dims (some c) s d).1.pending = insert (c, s.nextId) s.pending := by
  simp [createRandomCircle, h]

theorem spawn_nextId_eq {s : SysState} {c : ContainerId} (dims : ContainerId → Container)
    (d : SpawnDraws) (h : capReached s c = false) :
    (createRandomCircle dims (some c) s d).1.nextId = s.nextId + 1 := by
  simp [createRandomCircle, h]

theorem spawn_circle_eq {s : SysState} {c : ContainerId} (dims : ContainerId → Container)
    (d : SpawnDraws) (h : capReached s c = false) :
    (createRandomCircle dims (some c) s d).2.1 =
      some ⟨s.nextId,
            getRandomInRange ANIMATION_CONFIG.sizeMin ANIMATION_CONFIG.sizeMax d.rSize,
            (getRandomPosition (some (dims c))
              (getRandomInRange ANIMATION_CONFIG.sizeMin ANIMATION_CONFIG.sizeMax d.rSize)
              d.rEdge1 d.rCoord1).1,
            (getRandomPosition (some (dims c))
              (getRandomInRange ANIMATION_CONFIG.sizeMin ANIMATION_CONFIG.sizeMax d.rSize)
              d.rEdge2 d.rCoord2).1,
            getRandomInRange ANIMATION_CONFIG.durMin ANIMATION_CONFIG.durMax d.rDur * 1000⟩ := by
  simp [createRandomCircle, h]

theorem spawn_trace_eq {s : SysState} {c : ContainerId} (dims : ContainerId → Container)
    (d : SpawnDraws) (h : capReached s c = false) :
    (createRandomCircle dims (some c) s d).2.2 =
      Effect.createElement s.nextId ::
        (getRandomPosition (some (dims c))
          (getRandomInRange ANIMATION_CONFIG.sizeMin ANIMATION_CONFIG.sizeMax d.rSize)
          d.rEdge1 d.rCoord1).2 ++
        (getRandomPosition (some (dims c))
          (getRandomInRange ANIMATION_CONFIG.sizeMin ANIMATION_CONFIG.sizeMax d.rSize)
          d.rEdge2 d.rCoord2).2 ++
        [Effect.addToActiveSet c s.nextId, Effect.startAnimation s.nextId,
         Effect.appendChild c s.nextId] := by
  simp [createRandomCircle, h]

theorem activeCount_spawn_le {s : SysState} (dims : ContainerId → Container)
    (co : Option ContainerId) (d : SpawnDraws) (c2 : ContainerId)
    (h : activeCount s c2 ≤ ANIMATION_CONFIG.maxCirclesPerContainer) :
    activeCount (createRandomCircle dims co s d).1 c2 ≤
      ANIMATION_CONFIG.maxCirclesPerContainer := by
  cases co with
  | none => rw [createRandomCircle_none]; exact h
  | some c =>
    cases hc : capReached s c with
    | true => rw [createRandomCircle_cap dims d hc]; exact h
    | false =>
      unfold activeCount
      rw [spawn_active_apply dims d hc c2]
      by_cases hcc : c2 = c
      · subst hcc
        rw [if_pos rfl, Option.getD_some]
        have hlt : activeCount s c2 < ANIMATION_CONFIG.maxCirclesPerContainer :=
          (capReached_eq_false_iff s c2).mp hc
        have hcard : (insert s.nextId ((s.active c2).getD ∅)).card ≤
            ((s.active c2).getD ∅).card + 1 := Finset.card_insert_le _ _
        rw [card_getD_active] at hcard
        omega
      · simp only [if_neg hcc]
        exact h

theorem activeCount_spawn_mono {s : SysState} (dims : ContainerId → Container)
    (co : Option ContainerId) (d : SpawnDraws) (c2 : ContainerId) :
    activeCount s c2 ≤ activeCount (createRandomCircle dims co s d).1 c2 := by
  cases co with
  | none => rw [createRandomCircle_none]
  | some c =>
    cases hc : capReached s c with
    | true => rw [createRandomCircle_cap dims d hc]
    | false =>
      unfold activeCount
      rw [spawn_active_apply dims d hc c2]
      by_cases hcc : c2 = c
      · subst hcc
        rw [if_pos rfl, Option.getD_some]
        exact Finset.card_le_card (Finset.subset_insert _ _)
      · simp only [if_neg hcc]
        exact le_rfl

theorem activeCount_spawn_pos {s : SysState} (dims : ContainerId → Container)
    (c : ContainerId) (d : SpawnDraws) :
    1 ≤ activeCount (createRandomCircle dims (some c) s d).1 c := by
  cases hc : capReached s c with
  | true =>
    have h5 := (capReached_eq_true_iff s c).mp hc
    rw [createRandomCircle_cap dims d hc]
    show 1 ≤ activeCount s c
    simp only [ANIMATION_CONFIG] at h5
    omega
  | false =>
    unfold activeCount
    rw [spawn_active_apply dims d hc c, if_pos rfl, Option.getD_some]
    have hpos : 0 < (insert s.nextId ((s.active c).getD ∅)).card :=
      Finset.card_pos.mpr ⟨s.nextId, Finset.mem_insert_self _ _⟩
    omega

theorem activeCount_spawnLoop_le {s : SysState} (dims : ContainerId → Container)
    (co : Option ContainerId) (ds : List SpawnDraws) (c2 : ContainerId)
    (h : activeCount s c2 ≤ ANIMATION_CONFIG.maxCirclesPerContainer) :
    activeCount (spawnLoop dims co s ds).1 c2 ≤ ANIMATION_CONFIG.maxCirclesPerContainer := by
  induction ds generalizing s with
  | nil => exact h
  | cons d rest ih =>
    exact ih (activeCount_spawn_le dims co d c2 h)

theorem activeCount_spawnLoop_mono {s : SysState} (dims : ContainerId → Container)
    (co : Option ContainerId) (ds : List SpawnDraws) (c2 : ContainerId) :
    activeCount s c2 ≤ activeCount (spawnLoop dims co s ds).1 c2 := by
  induction ds generalizing s with
  | nil => exact le_rfl
  | cons d rest ih =>
    exact le_trans (activeCount_spawn_mono dims co d c2) (ih)

theorem activeCount_seed_le {s : SysState} (dims : ContainerId → Container)
    (co : Option ContainerId) (rCount : ℚ) (ds : ℕ → SpawnDraws) (c2 : ContainerId)
    (h : activeCount s c2 ≤ ANIMATION_CONFIG.maxCirclesPerContainer) :
    activeCount (createRandomCircles dims co s rCount ds).1 c2 ≤
      ANIMATION_CONFIG.maxCirclesPerContainer := by
  cases co with
  | none => exact h
  | some c => exact activeCount_spawnLoop_le dims (some c) _ c2 h

theorem activeCount_erase_le {s : SysState} (c : ContainerId) (id : CircleId)
    (c2 : ContainerId) :
    activeCount
      { s with
        active := fun c3 => if c3 = c then (s.active c3).map (fun t => t.erase id) else s.active c3
        dom := fun c3 => if c3 = c then (s.dom c3).erase id else s.dom c3 } c2 ≤
      activeCount s c2 := by
  unfold activeCount
  by_cases hcc : c2 = c
  · subst hcc
    simp only [if_pos rfl]
    cases h : s.active c2 with
    | none => simp
    | some t => simp [h, Finset.card_erase_le]
  · simp only [if_neg hcc]
    exact le_rfl

theorem activeCount_onFinish_le {s : SysState} (dims : ContainerId → Container)
    (c : ContainerId) (id : CircleId) (d : SpawnDraws) (c2 : ContainerId)
    (h : activeCount s c2 ≤ ANIMATION_CONFIG.maxCirclesPerContainer) :
    activeCount (animationOnFinish dims c id s d).1 c2 ≤
      ANIMATION_CONFIG.maxCirclesPerContainer := by
  show activeCount (createRandomCircle dims (some c)
    { s with
      active := fun c3 => if c3 = c then (s.active c3).map (fun t => t.erase id) else s.active c3
      dom := fun c3 => if c3 = c then (s.dom c3).erase id else s.dom c3 } d).1 c2 ≤
    ANIMATION_CONFIG.maxCirclesPerContainer
  exact activeCount_spawn_le dims (some c) d c2 (le_trans (activeCount_erase_le c id c2) h)

theorem activeCount_reset_le {s : SysState} (dims : ContainerId → Container)
    (c : ContainerId) (rCount : ℚ) (ds : ℕ → SpawnDraws) (c2 : ContainerId)
    (h : activeCount s c2 ≤ ANIMATION_CONFIG.maxCirclesPerContainer) :
    activeCount (resetContainer dims c s rCount ds).1 c2 ≤
      ANIMATION_CONFIG.maxCirclesPerContainer := by
  unfold resetContainer
  cases ha : s.active c with
  | none => exact h
  | some t =>
    refine activeCount_seed_le dims (some c) rCount ds c2 ?_
    unfold activeCount clearContainer
    by_cases hcc : c2 = c
    · subst hcc
      simp
    · simp only [if_neg hcc]
      exact h

theorem activeCount_resize_le {s : SysState} (dims : ContainerId → Container)
    (containers : List (Option ContainerId)) (rc : ContainerId → ℚ)
    (ds : ContainerId → ℕ → SpawnDraws) (c2 : ContainerId)
    (h : activeCount s c2 ≤ ANIMATION_CONFIG.maxCirclesPerContainer) :
    activeCount (handleResize dims containers s rc ds) c2 ≤
      ANIMATION_CONFIG.maxCirclesPerContainer := by
  induction containers generalizing s with
  | nil => exact h
  | cons oc rest ih =>
    cases oc with
    | none => exact ih h
    | some c => exact ih (activeCount_reset_le dims c (rc c) (ds c) c2 h)

/-- Every reachable state respects the per-container population cap. -/
theorem reachable_activeCount_le {dims : ContainerId → Container} {s : SysState}
    (h : Reachable dims s) (c2 : ContainerId) :
    activeCount s c2 ≤ ANIMATION_CONFIG.maxCirclesPerContainer := by
  induction h with
  | init => simp [activeCount, initState]
  | spawn s co d hr ih => exact activeCount_spawn_le dims co d c2 (ih)
  | seed s co rCount ds hr ih => exact activeCount_seed_le dims co rCount ds c2 ih
  | finish s c id d hr hp ih =>
    exact activeCount_onFinish_le dims c id d c2 ih
  | resize s containers rc ds hr ih =>
    exact activeCount_resize_le dims containers rc ds c2 ih

/-- C1: at every reachable state of the system — after any interleaving of
seeding, spawn calls, animation-completion callbacks, and resize resets —
the number of circles in any container's active set never exceeds
`maxCirclesPerContainer` (5); and whenever the count already equals or
exceeds the cap, `createRandomCircle` declines to spawn, leaving the state
unchanged, queuing nothing and emitting no diagnostic. -/
theorem c1_population_cap {dims : ContainerId → Container} {s : SysState}
    (h : Reachable dims s) :
    (∀ c t, s.active c = some t → t.card ≤ ANIMATION_CONFIG.maxCirclesPerContainer) ∧
    (∀ c t d, s.active c = some t → ANIMATION_CONFIG.maxCirclesPerContainer ≤ t.card →
      createRandomCircle dims (some c) s d = (s, none, [])) := by
  constructor
  · intro c t ht
    have hc := reachable_activeCount_le h c
    rw [activeCount_some ht] at hc
    exact hc
  · intro c t d ht hge
    refine createRandomCircle_cap dims d ?_
    rw [capReached_eq_true_iff, activeCount_some ht]
    exact hge

/-- Concrete container dimensions used to instantiate the theorems. -/
def dims0 : ContainerId → Container := fun _ => ⟨200, 100⟩

/-- Concrete random draws used to instantiate the theorems. -/
def d0 : SpawnDraws :=
  { rSize := 1/2, rEdge1 := 0, rCoord1 := 1/2, rEdge2 := 1/4, rCoord2 := 0, rDur := 1/2 }

theorem c1_population_cap_witness :
    Reachable dims0 (createRandomCircle dims0 (some 0) initState d0).1 ∧
    ((∀ c t, (createRandomCircle dims0 (some 0) initState d0).1.active c = some t →
        t.card ≤ ANIMATION_CONFIG.maxCirclesPerContainer) ∧
     (∀ c t d, (createRandomCircle dims0 (some 0) initState d0).1.active c = some t →
        ANIMATION_CONFIG.maxCirclesPerContainer ≤ t.card →
        createRandomCircle dims0 (some c) (createRandomCircle dims0 (some 0) initState d0).1 d =
          ((createRandomCircle dims0 (some 0) initState d0).1, none, []))) :=
  ⟨Reachable.spawn initState (some 0) d0 Reachable.init,
   c1_population_cap (Reachable.spawn initState (some 0) d0 Reachable.init)⟩

/-- C5: for all integers `min ≤ max` and any random draw in `[0,1)`,
`getRandomInRange min max r` returns an integer in the inclusive range
`[min, max]`.  The embedding is a pure function of `min`, `max` and the
random draw `r`, which models the side-effect-freeness part of the claim. -/
theorem c5_randomInRange_range (min max : ℤ) (r : ℚ) (hmm : min ≤ max)
    (h0 : 0 ≤ r) (h1 : r < 1) :
    min ≤ getRandomInRange min max r ∧ getRandomInRange min max r ≤ max :=
  getRandomInRange_mem min max r hmm h0 h1

theorem c5_randomInRange_range_witness :
    ((-3 : ℤ) ≤ 7 ∧ (0 : ℚ) ≤ 2/3 ∧ (2/3 : ℚ) < 1) ∧
    (-3 ≤ getRandomInRange (-3) 7 (2/3) ∧ getRandomInRange (-3) 7 (2/3) ≤ 7) :=
  ⟨by norm_num,
   c5_randomInRange_range (-3) 7 (2/3) (by norm_num) (by norm_num) (by norm_num)⟩

/-- C6: whenever the container handle is absent, or its width or height is
zero (the JS falsy check also catches the missing/undefined case),
`getRandomPosition` returns exactly `(0, 0)` and logs the warning
diagnostic, rather than raising. -/
theorem c6_invalid_dimensions_fallback (container : Option Container) (size : ℤ)
    (rEdge rCoord : ℚ)
    (h : container = none ∨
      ∃ c, container = some c ∧ (c.clientWidth = 0 ∨ c.clientHeight = 0)) :
    getRandomPosition container size rEdge rCoord =
      (⟨0, 0⟩, [Effect.logWarn "Invalid container dimensions"]) := by
  rcases h with h | ⟨c, rfl, hc⟩
  · subst h
    rfl
  · simp [getRandomPosition, hc]

theorem c6_invalid_dimensions_fallback_witness :
    ((some (⟨0, 50⟩ : Container) = none ∨
      ∃ c, some (⟨0, 50⟩ : Container) = some c ∧ (c.clientWidth = 0 ∨ c.clientHeight = 0)) ∧
     getRandomPosition (some ⟨0, 50⟩) 20 (1/2) (1/2) =
       (⟨0, 0⟩, [Effect.logWarn "Invalid container dimensions"])) :=
  ⟨Or.inr ⟨⟨0, 50⟩, rfl, Or.inl rfl⟩,
   c6_invalid_dimensions_fallback (some ⟨0, 50⟩) 20 (1/2) (1/2)
     (Or.inr ⟨⟨0, 50⟩, rfl, Or.inl rfl⟩)⟩

/-- C7: invoked with a null/undefined container, `createRandomCircle` logs
exactly one error and performs no mutation: the returned state is the input
state (active-circle map, attached elements, pending callbacks and element
counter all unchanged), no circle is produced, and the trace holds no
element creation, attach, or animation effect. -/
theorem c7_null_container_atomic (dims : ContainerId → Container) (s : SysState)
    (d : SpawnDraws) :
    createRandomCircle dims none s d =
      (s, none, [Effect.logError "Container element is null or undefined"]) := rfl

/-- The per-edge shape asserted by the spec for a result of
`getRandomPosition`: exactly the four cases top / right / bottom / left,
with one coordinate fixed at the size-proportional offset outside the
chosen edge and the other inside the in-bounds range of its axis. -/
def edgeSpecHolds (W H S : ℤ) (p : Pos) : Prop :=
  (0 ≤ p.x ∧ p.x ≤ W - S ∧ p.y = -(S * ANIMATION_CONFIG.offsetMultiplier)) ∨
  (p.x = W + S * ANIMATION_CONFIG.offsetMultiplier ∧ 0 ≤ p.y ∧ p.y ≤ H - S) ∨
  (0 ≤ p.x ∧ p.x ≤ W - S ∧ p.y = H + S * ANIMATION_CONFIG.offsetMultiplier) ∨
  (p.x = -(S * ANIMATION_CONFIG.offsetMultiplier) ∧ 0 ≤ p.y ∧ p.y ≤ H - S)

instance edgeSpecHolds.instDecidable (W H S : ℤ) (p : Pos) :
    Decidable (edgeSpecHolds W H S p) := by
  unfold edgeSpecHolds
  infer_instance

/-- C3 counterexample: the claim quantifies over every object size, but for
a 1×1 container and size 2 the in-bounds range `[0, W−S]` is empty, and the
value actually returned (edge draw 0 selects the top edge, coordinate draw 0
yields x = 0, y = −4) satisfies none of the four edge shapes. -/
theorem c3_counterexample :
    ¬ edgeSpecHolds 1 1 2 (getRandomPosition (some ⟨1, 1⟩) 2 0 0).1 := by
  have hp : (getRandomPosition (some ⟨1, 1⟩) 2 0 0).1 = ⟨0, -4⟩ := by
    unfold getRandomPosition getRandomInRange
    norm_num [ANIMATION_CONFIG]
  rw [hp]
  decide

/-- C3 (amended: the object size must additionally satisfy
`S ≤ min(W, H)`, as the spec's testable-properties section itself states):
for every container with positive width and height, any size within the
container, and edge/coordinate draws in `[0,1)`, `getRandomPosition`
returns a point of one of the four edge shapes: exactly one coordinate is
the fixed offset outside the chosen edge and the other lies in the
in-bounds range for its axis. -/
theorem c3_edge_position (W H : ℕ) (S : ℤ) (rEdge rCoord : ℚ)
    (hW : 0 < W) (hH : 0 < H) (hSW : S ≤ (W : ℤ)) (hSH : S ≤ (H : ℤ))
    (he0 : 0 ≤ rEdge) (he1 : rEdge < 1) (hc0 : 0 ≤ rCoord) (hc1 : rCoord < 1) :
    edgeSpecHolds (W : ℤ) (H : ℤ) S
      (getRandomPosition (some ⟨W, H⟩) S rEdge rCoord).1 := by
  have hne : ¬((W : ℕ) = 0 ∨ (H : ℕ) = 0) := by omega
  have h03 := edge_mem rEdge he0 he1
  have he : ⌊rEdge * 4⌋ = 0 ∨ ⌊rEdge * 4⌋ = 1 ∨ ⌊rEdge * 4⌋ = 2 ∨ ⌊rEdge * 4⌋ = 3 := by
    omega
  have hX := getRandomInRange_mem 0 ((W : ℤ) - S) rCoord (by omega) hc0 hc1
  have hY := getRandomInRange_mem 0 ((H : ℤ) - S) rCoord (by omega) hc0 hc1
  unfold edgeSpecHolds
  rcases he with h | h | h | h
  · have hp : (getRandomPosition (some ⟨W, H⟩) S rEdge rCoord).1 =
        ⟨getRandomInRange 0 ((W : ℤ) - S) rCoord,
         -(S * ANIMATION_CONFIG.offsetMultiplier)⟩ := by
      simp only [getRandomPosition, if_neg hne, h]
      norm_num
    rw [hp]
    exact Or.inl ⟨hX.1, hX.2, rfl⟩
  · have hp : (getRandomPosition (some ⟨W, H⟩) S rEdge rCoord).1 =
        ⟨(W : ℤ) + S * ANIMATION_CONFIG.offsetMultiplier,
         getRandomInRange 0 ((H : ℤ) - S) rCoord⟩ := by
      simp only [getRandomPosition, if_neg hne, h]
      norm_num
    rw [hp]
    exact Or.inr (Or.inl ⟨rfl, hY.1, hY.2⟩)
  · have hp : (getRandomPosition (some ⟨W, H⟩) S rEdge rCoord).1 =
        ⟨getRandomInRange 0 ((W : ℤ) - S) rCoord,
         (H : ℤ) + S * ANIMATION_CONFIG.offsetMultiplier⟩ := by
      simp only [getRandomPosition, if_neg hne, h]
      norm_num
    rw [hp]
    exact Or.inr (Or.inr (Or.inl ⟨hX.1, hX.2, rfl⟩))
  · have hp : (getRandomPosition (some ⟨W, H⟩) S rEdge rCoord).1 =
        ⟨-(S * ANIMATION_CONFIG.offsetMultiplier),
         getRandomInRange 0 ((H : ℤ) - S) rCoord⟩ := by
      simp only [getRandomPosition, if_neg hne, h]
      norm_num
    rw [hp]
    exact Or.inr (Or.inr (Or.inr ⟨rfl, hY.1, hY.2⟩))

theorem c3_edge_position_witness :
    ((0 < 100 ∧ 0 < 50 ∧ (10 : ℤ) ≤ (100 : ℕ) ∧ (10 : ℤ) ≤ (50 : ℕ)) ∧
     ((0 : ℚ) ≤ 1/2 ∧ (1/2 : ℚ) < 1 ∧ (0 : ℚ) ≤ 1/3 ∧ (1/3 : ℚ) < 1) ∧
     edgeSpecHolds (100 : ℕ) (50 : ℕ) 10
       (getRandomPosition (some ⟨100, 50⟩) 10 (1/2) (1/3)).1) :=
  ⟨by norm_num, by norm_num,
   c3_edge_position 100 50 10 (1/2) (1/3) (by norm_num) (by norm_num) (by norm_num)
     (by norm_num) (by norm_num) (by norm_num) (by norm_num) (by norm_num)⟩

theorem getRandomPosition_snd_eq (container : Option Container) (size : ℤ)
    (rEdge rCoord : ℚ) :
    (getRandomPosition container size rEdge rCoord).2 = [] ∨
    (getRandomPosition container size rEdge rCoord).2 =
      [Effect.logWarn "Invalid container dimensions"] := by
  cases container with
  | none => right; rfl
  | some c =>
    by_cases h : c.clientWidth = 0 ∨ c.clientHeight = 0
    · right
      simp [getRandomPosition, h]
    · simp only [getRandomPosition, if_neg h]
      split_ifs <;> simp

/-- C4: in every successful `createRandomCircle` execution, the effect trace
places the registration of the new circle in the container's active set
strictly before the start of its animation (whatever effects, such as
dimension warnings, precede the registration, none of them starts the
animation). -/
theorem c4_register_before_animate (dims : ContainerId → Container) (c : ContainerId)
    (s : SysState) (d : SpawnDraws) (circ : Circle)
    (h : (createRandomCircle dims (some c) s d).2.1 = some circ) :
    ∃ l1 l2 l3,
      (createRandomCircle dims (some c) s d).2.2 =
        l1 ++ Effect.addToActiveSet c circ.id :: l2 ++ Effect.startAnimation circ.id :: l3 ∧
      Effect.startAnimation circ.id ∉ l1 ∧ Effect.startAnimation circ.id ∉ l2 := by
  cases hc : capReached s c with
  | true =>
    rw [createRandomCircle_cap dims d hc] at h
    exact absurd h (by simp)
  | false =>
    rw [spawn_circle_eq dims d hc] at h
    rw [Option.some_inj] at h
    subst h
    rw [spawn_trace_eq dims d hc]
    refine ⟨Effect.createElement s.nextId ::
        ((getRandomPosition (some (dims c))
          (getRandomInRange ANIMATION_CONFIG.sizeMin ANIMATION_CONFIG.sizeMax d.rSize)
          d.rEdge1 d.rCoord1).2 ++
         (getRandomPosition (some (dims c))
          (getRandomInRange ANIMATION_CONFIG.sizeMin ANIMATION_CONFIG.sizeMax d.rSize)
          d.rEdge2 d.rCoord2).2),
      [], [Effect.appendChild c s.nextId], ?_, ?_, ?_⟩
    · simp
    · have h1 := getRandomPosition_snd_eq (some (dims c))
        (getRandomInRange ANIMATION_CONFIG.sizeMin ANIMATION_CONFIG.sizeMax d.rSize)
        d.rEdge1 d.rCoord1
      have h2 := getRandomPosition_snd_eq (some (dims c))
        (getRandomInRange ANIMATION_CONFIG.sizeMin ANIMATION_CONFIG.sizeMax d.rSize)
        d.rEdge2 d.rCoord2
      rcases h1 with h1 | h1 <;> rcases h2 with h2 | h2 <;> rw [h1, h2] <;> simp
    · simp

theorem c4_register_before_animate_witness :
    ((createRandomCircle dims0 (some 0) initState d0).2.1 =
      some ⟨0, 55, ⟨73, -110⟩, ⟨310, 0⟩, 8000⟩) ∧
    (∃ l1 l2 l3,
      (createRandomCircle dims0 (some 0) initState d0).2.2 =
        l1 ++ Effect.addToActiveSet 0 (Circle.id ⟨0, 55, ⟨73, -110⟩, ⟨310, 0⟩, 8000⟩) :: l2 ++
          Effect.startAnimation (Circle.id ⟨0, 55, ⟨73, -110⟩, ⟨310, 0⟩, 8000⟩) :: l3 ∧
      Effect.startAnimation (Circle.id ⟨0, 55, ⟨73, -110⟩, ⟨310, 0⟩, 8000⟩) ∉ l1 ∧
      Effect.startAnimation (Circle.id ⟨0, 55, ⟨73, -110⟩, ⟨310, 0⟩, 8000⟩) ∉ l2) :=
  ⟨by
    unfold createRandomCircle capReached initState dims0 d0 getRandomPosition getRandomInRange
    norm_num [ANIMATION_CONFIG],
   c4_register_before_animate dims0 0 initState d0 ⟨0, 55, ⟨73, -110⟩, ⟨310, 0⟩, 8000⟩
     (by
      unfold createRandomCircle capReached initState dims0 d0 getRandomPosition getRandomInRange
      norm_num [ANIMATION_CONFIG])⟩

/-- Removal of a circle from display and from its container's entry of the
active-circle map (the first two actions of the completion handler). -/
def removeCircle (c : ContainerId) (id : CircleId) (s : SysState) : SysState :=
  { active := fun c2 => if c2 = c then (s.active c2).map (fun t => t.erase id) else s.active c2
    dom := fun c2 => if c2 = c then (s.dom c2).erase id else s.dom c2
    pending := s.pending
    nextId := s.nextId }

/-- C2: the completion handler of a circle performs exactly: remove the
element from display, remove it from the container's active set, then make
one `createRandomCircle` attempt for the same container (third conjunct, the
structural decomposition — in particular the spawn attempt is always made).
Consequently (first two conjuncts, which need the freshness of the
replacement circle's identity) the finished circle is in neither the active
set nor the display of the resulting state. -/
theorem c2_completion_handler (dims : ContainerId → Container) (c : ContainerId)
    (id : CircleId) (s : SysState) (d : SpawnDraws) (hid : id < s.nextId) :
    (∀ t, (animationOnFinish dims c id s d).1.active c = some t → id ∉ t) ∧
    id ∉ (animationOnFinish dims c id s d).1.dom c ∧
    animationOnFinish dims c id s d =
      ((createRandomCircle dims (some c) (removeCircle c id s) d).1,
       (createRandomCircle dims (some c) (removeCircle c id s) d).2.1,
       Effect.removeElement id :: Effect.removeFromActiveSet c id ::
         (createRandomCircle dims (some c) (removeCircle c id s) d).2.2) := by
  refine ⟨?_, ?_, rfl⟩
  · show ∀ t, (createRandomCircle dims (some c) (removeCircle c id s) d).1.active c = some t →
      id ∉ t
    intro t ht
    cases hc : capReached (removeCircle c id s) c with
    | true =>
      rw [createRandomCircle_cap dims d hc] at ht
      have ht2 : ((s.active c).map (fun t0 => t0.erase id)) = some t := by
        rw [← ht]
        simp [removeCircle]
      cases ha : s.active c with
      | none => rw [ha] at ht2; simp at ht2
      | some t0 =>
        rw [ha] at ht2
        simp only [Option.map_some', Option.some_inj] at ht2
        rw [← ht2]
        exact Finset.not_mem_erase id t0
    | false =>
      rw [spawn_active_apply dims d hc c, if_pos rfl, Option.some_inj] at ht
      rw [← ht]
      intro hmem
      rcases Finset.mem_insert.mp hmem with h1 | h1
      · have heq : id = s.nextId := h1
        exact absurd heq (Nat.ne_of_lt hid)
      · have h2 : id ∈ (((s.active c).map (fun t0 => t0.erase id)).getD ∅) := by
          have : (removeCircle c id s).active c = (s.active c).map (fun t0 => t0.erase id) := by
            simp [removeCircle]
          rw [← this]
          exact h1
        cases ha : s.active c with
        | none => rw [ha] at h2; simp at h2
        | some t0 => rw [ha] at h2; simp at h2
  · show id ∉ (createRandomCircle dims (some c) (removeCircle c id s) d).1.dom c
    cases hc : capReached (removeCircle c id s) c with
    | true =>
      rw [createRandomCircle_cap dims d hc]
      show id ∉ (removeCircle c id s).dom c
      simp [removeCircle]
    | false =>
      rw [spawn_dom_apply dims d hc c, if_pos rfl]
      intro hmem
      rcases Finset.mem_insert.mp hmem with h1 | h1
      · have heq : id = s.nextId := h1
        exact absurd heq (Nat.ne_of_lt hid)
      · have h2 : id ∈ (s.dom c).erase id := by
          have : (removeCircle c id s).dom c = (s.dom c).erase id := by
            simp [removeCircle]
          rw [← this]
          exact h1
        simp at h2

/-- A concrete one-circle state used to instantiate the completion-handler
theorem. -/
def sWit : SysState :=
  { active := fun c2 => if c2 = 0 then some {0} else none
    dom := fun c2 => if c2 = 0 then {0} else ∅
    pending := {(0, 0)}
    nextId := 1 }

theorem c2_completion_handler_witness :
    (0 < sWit.nextId) ∧
    ((∀ t, (animationOnFinish dims0 0 0 sWit d0).1.active 0 = some t → 0 ∉ t) ∧
     0 ∉ (animationOnFinish dims0 0 0 sWit d0).1.dom 0 ∧
     animationOnFinish dims0 0 0 sWit d0 =
       ((createRandomCircle dims0 (some 0) (removeCircle 0 0 sWit) d0).1,
        (createRandomCircle dims0 (some 0) (removeCircle 0 0 sWit) d0).2.1,
        Effect.removeElement 0 :: Effect.removeFromActiveSet 0 0 ::
          (createRandomCircle dims0 (some 0) (removeCircle 0 0 sWit) d0).2.2)) :=
  ⟨by simp [sWit],
   c2_completion_handler dims0 0 0 sWit d0 (by simp [sWit])⟩

/-- Every circle identity stored in the active-circle map is older than the
element counter (new elements are always fresh). -/
def ActiveBounded (s : SysState) : Prop :=
  ∀ c t, s.active c = some t → ∀ i ∈ t, i < s.nextId

theorem spawn_nextId_mono {s : SysState} (dims : ContainerId → Container)
    (co : Option ContainerId) (d : SpawnDraws) :
    s.nextId ≤ (createRandomCircle dims co s d).1.nextId := by
  cases co with
  | none => exact le_rfl
  | some c =>
    cases hc : capReached s c with
    | true => rw [createRandomCircle_cap dims d hc]
    | false => rw [spawn_nextId_eq dims d hc]; exact Nat.le_succ _

theorem spawnLoop_nextId_mono {s : SysState} (dims : ContainerId → Container)
    (co : Option ContainerId) (ds : List SpawnDraws) :
    s.nextId ≤ (spawnLoop dims co s ds).1.nextId := by
  induction ds generalizing s with
  | nil => exact le_rfl
  | cons d rest ih => exact le_trans (spawn_nextId_mono dims co d) ih

theorem seed_nextId_mono {s : SysState} (dims : ContainerId → Container)
    (co : Option ContainerId) (rCount : ℚ) (ds : ℕ → SpawnDraws) :
    s.nextId ≤ (createRandomCircles dims co s rCount ds).1.nextId := by
  cases co with
  | none => exact le_rfl
  | some c => exact spawnLoop_nextId_mono dims (some c) _

theorem reset_nextId_mono {s : SysState} (dims : ContainerId → Container)
    (c : ContainerId) (rCount : ℚ) (ds : ℕ → SpawnDraws) :
    s.nextId ≤ (resetContainer dims c s rCount ds).1.nextId := by
  unfold resetContainer
  cases ha : s.active c with
  | none => exact le_rfl
  | some t =>
    have h1 : (clearContainer c t s).nextId ≤
        (createRandomCircles dims (some c) (clearContainer c t s) rCount ds).1.nextId :=
      seed_nextId_mono dims (some c) rCount ds
    exact h1

theorem ActiveBounded.spawn {s : SysState} (dims : ContainerId → Container)
    (co : Option ContainerId) (d : SpawnDraws) (hab : ActiveBounded s) :
    ActiveBounded (createRandomCircle dims co s d).1 := by
  cases co with
  | none => exact hab
  | some c =>
    cases hc : capReached s c with
    | true => rw [createRandomCircle_cap dims d hc]; exact hab
    | false =>
      intro c2 t ht i hi
      rw [spawn_nextId_eq dims d hc]
      rw [spawn_active_apply dims d hc c2] at ht
      by_cases hcc : c2 = c
      · rw [if_pos hcc, Option.some_inj] at ht
        rw [← ht] at hi
        rcases Finset.mem_insert.mp hi with h1 | h1
        · rw [h1]; exact Nat.lt_succ_self _
        · cases ha : s.active c with
          | none => rw [ha] at h1; simp at h1
          | some t0 =>
            rw [ha, Option.getD_some] at h1
            exact Nat.lt_succ_of_lt (hab c t0 ha i h1)
      · rw [if_neg hcc] at ht
        exact Nat.lt_succ_of_lt (hab c2 t ht i hi)

theorem ActiveBounded.spawnLoop {s : SysState} (dims : ContainerId → Container)
    (co : Option ContainerId) (ds : List SpawnDraws) (hab : ActiveBounded s) :
    ActiveBounded (spawnLoop dims co s ds).1 := by
  induction ds generalizing s with
  | nil => exact hab
  | cons d rest ih => exact ih (hab.spawn dims co d)

theorem ActiveBounded.seed {s : SysState} (dims : ContainerId → Container)
    (co : Option ContainerId) (rCount : ℚ) (ds : ℕ → SpawnDraws) (hab : ActiveBounded s) :
    ActiveBounded (createRandomCircles dims co s rCount ds).1 := by
  cases co with
  | none => exact hab
  | some c => exact hab.spawnLoop dims (some c) _

theorem ActiveBounded.erase {s : SysState} (c : ContainerId) (id : CircleId)
    (hab : ActiveBounded s) :
    ActiveBounded
      { s with
        active := fun c3 => if c3 = c then (s.active c3).map (fun t => t.erase id) else s.active c3
        dom := fun c3 => if c3 = c then (s.dom c3).erase id else s.dom c3 } := by
  intro c2 t ht i hi
  by_cases hcc : c2 = c
  · simp only [if_pos hcc] at ht
    cases ha : s.active c2 with
    | none => rw [ha] at ht; simp at ht
    | some t0 =>
      rw [ha, Option.map_some', Option.some_inj] at ht
      rw [← ht] at hi
      exact hab c2 t0 ha i (Finset.mem_of_mem_erase hi)
  · simp only [if_neg hcc] at ht
    exact hab c2 t ht i hi

theorem ActiveBounded.onFinish {s : SysState} (dims : ContainerId → Container)
    (c : ContainerId) (id : CircleId) (d : SpawnDraws) (hab : ActiveBounded s) :
    ActiveBounded (animationOnFinish dims c id s d).1 := by
  show ActiveBounded (createRandomCircle dims (some c)
    { s with
      active := fun c3 => if c3 = c then (s.active c3).map (fun t => t.erase id) else s.active c3
      dom := fun c3 => if c3 = c then (s.dom c3).erase id else s.dom c3 } d).1
  exact ActiveBounded.spawn dims (some c) d (hab.erase c id)

theorem ActiveBounded.reset {s : SysState} (dims : ContainerId → Container)
    (c : ContainerId) (rCount : ℚ) (ds : ℕ → SpawnDraws) (hab : ActiveBounded s) :
    ActiveBounded (resetContainer dims c s rCount ds).1 := by
  unfold resetContainer
  cases ha : s.active c with
  | none => exact hab
  | some t =>
    show ActiveBounded
      (createRandomCircles dims (some c) (clearContainer c t s) rCount ds).1
    refine ActiveBounded.seed dims (some c) rCount ds ?_
    intro c2 t2 ht2 i hi
    simp only [clearContainer] at ht2
    by_cases hcc : c2 = c
    · simp only [if_pos hcc, Option.some_inj] at ht2
      rw [← ht2] at hi
      simp at hi
    · simp only [if_neg hcc] at ht2
      exact hab c2 t2 ht2 i hi

theorem ActiveBounded.resize {s : SysState} (dims : ContainerId → Container)
    (containers : List (Option ContainerId)) (rc : ContainerId → ℚ)
    (ds : ContainerId → ℕ → SpawnDraws) (hab : ActiveBounded s) :
    ActiveBounded (handleResize dims containers s rc ds) := by
  induction containers generalizing s with
  | nil => exact hab
  | cons oc rest ih =>
    cases oc with
    | none => exact ih hab
    | some c => exact ih (hab.reset dims c (rc c) (ds c))

/-- Every reachable state stores only circle identities below the element
counter. -/
theorem reachable_activeBounded {dims : ContainerId → Container} {s : SysState}
    (h : Reachable dims s) : ActiveBounded s := by
  induction h with
  | init => intro c t ht i hi; simp [initState] at ht
  | spawn s co d hr ih => exact ih.spawn dims co d
  | seed s co rCount ds hr ih => exact ih.seed dims co rCount ds
  | finish s c id d hr hp ih =>
    refine ActiveBounded.onFinish dims c id d ?_
    intro c2 t ht i hi
    exact ih c2 t ht i hi
  | resize s containers rc ds hr ih => exact ih.resize dims containers rc ds

theorem spawn_active_untouched {s : SysState} {c : ContainerId} (dims : ContainerId → Container)
    (co : Option ContainerId) (d : SpawnDraws) (h : co ≠ some c) :
    (createRandomCircle dims co s d).1.active c = s.active c := by
  cases co with
  | none => rfl
  | some c2 =>
    cases hc : capReached s c2 with
    | true => rw [createRandomCircle_cap dims d hc]
    | false =>
      rw [spawn_active_apply dims d hc c]
      have hne : ¬ (c = c2) := fun heq => h (by rw [heq])
      rw [if_neg hne]

theorem spawnLoop_active_untouched {s : SysState} {c : ContainerId}
    (dims : ContainerId → Container) (co : Option ContainerId) (ds : List SpawnDraws)
    (h : co ≠ some c) :
    (spawnLoop dims co s ds).1.active c = s.active c := by
  induction ds generalizing s with
  | nil => rfl
  | cons d rest ih =>
    show (spawnLoop dims co (createRandomCircle dims co s d).1 rest).1.active c = s.active c
    rw [ih, spawn_active_untouched dims co d h]

theorem seed_active_untouched {s : SysState} {c : ContainerId}
    (dims : ContainerId → Container) (co : Option ContainerId) (rCount : ℚ)
    (ds : ℕ → SpawnDraws) (h : co ≠ some c) :
    (createRandomCircles dims co s rCount ds).1.active c = s.active c := by
  cases co with
  | none => rfl
  | some c2 => exact spawnLoop_active_untouched dims (some c2) _ h

theorem reset_active_untouched {s : SysState} {c c2 : ContainerId}
    (dims : ContainerId → Container) (rCount : ℚ) (ds : ℕ → SpawnDraws) (h : c ≠ c2) :
    (resetContainer dims c2 s rCount ds).1.active c = s.active c := by
  unfold resetContainer
  cases ha : s.active c2 with
  | none => rfl
  | some t =>
    have h2 : some c2 ≠ some c := fun heq => h (Option.some_inj.mp heq).symm
    show (createRandomCircles dims (some c2) (clearContainer c2 t s) rCount ds).1.active c =
      s.active c
    rw [seed_active_untouched dims (some c2) rCount ds h2]
    simp only [clearContainer, if_neg h]

/-- The circle `id` is absent from container `c`'s display and active-set
entry, and is older than the element counter (so no later spawn can
reintroduce it). -/
def ghostFree (c : ContainerId) (id : CircleId) (s : SysState) : Prop :=
  id ∉ s.dom c ∧ (∀ t, s.active c = some t → id ∉ t) ∧ id < s.nextId

theorem ghostFree_spawn {c : ContainerId} {id : CircleId} {s : SysState}
    (dims : ContainerId → Container) (co : Option ContainerId) (d : SpawnDraws)
    (h : ghostFree c id s) : ghostFree c id (createRandomCircle dims co s d).1 := by
  obtain ⟨hdom, hact, hlt⟩ := h
  have hlt2 : id < (createRandomCircle dims co s d).1.nextId :=
    lt_of_lt_of_le hlt (spawn_nextId_mono dims co d)
  cases co with
  | none => exact ⟨hdom, hact, hlt2⟩
  | some c2 =>
    cases hc : capReached s c2 with
    | true =>
      rw [createRandomCircle_cap dims d hc] at hlt2 ⊢
      exact ⟨hdom, hact, hlt2⟩
    | false =>
      refine ⟨?_, ?_, hlt2⟩
      · rw [spawn_dom_apply dims d hc c]
        by_cases hcc : c = c2
        · rw [if_pos hcc]
          intro hmem
          rcases Finset.mem_insert.mp hmem with h1 | h1
          · exact absurd h1 (Nat.ne_of_lt hlt)
          · exact hdom h1
        · rw [if_neg hcc]
          exact hdom
      · intro t ht
        rw [spawn_active_apply dims d hc c] at ht
        by_cases hcc : c = c2
        · rw [if_pos hcc, Option.some_inj] at ht
          rw [← ht]
          intro hmem
          rcases Finset.mem_insert.mp hmem with h1 | h1
          · exact absurd h1 (Nat.ne_of_lt hlt)
          · rw [← hcc] at h1
            cases ha : s.active c with
            | none => rw [ha] at h1; simp at h1
            | some t0 => rw [ha, Option.getD_some] at h1; exact hact t0 ha h1
        · rw [if_neg hcc] at ht
          exact hact t ht

theorem ghostFree_spawnLoop {c : ContainerId} {id : CircleId} {s : SysState}
    (dims : ContainerId → Container) (co : Option ContainerId) (ds : List SpawnDraws)
    (h : ghostFree c id s) : ghostFree c id (spawnLoop dims co s ds).1 := by
  induction ds generalizing s with
  | nil => exact h
  | cons d rest ih => exact ih (ghostFree_spawn dims co d h)

theorem ghostFree_seed {c : ContainerId} {id : CircleId} {s : SysState}
    (dims : ContainerId → Container) (co : Option ContainerId) (rCount : ℚ)
    (ds : ℕ → SpawnDraws) (h : ghostFree c id s) :
    ghostFree c id (createRandomCircles dims co s rCount ds).1 := by
  cases co with
  | none => exact h
  | some c2 => exact ghostFree_spawnLoop dims (some c2) _ h

theorem ghostFree_reset {c : ContainerId} {id : CircleId} {s : SysState}
    (dims : ContainerId → Container) (c2 : ContainerId) (rCount : ℚ) (ds : ℕ → SpawnDraws)
    (h : ghostFree c id s) : ghostFree c id (resetContainer dims c2 s rCount ds).1 := by
  obtain ⟨hdom, hact, hlt⟩ := h
  unfold resetContainer
  cases ha : s.active c2 with
  | none => exact ⟨hdom, hact, hlt⟩
  | some t =>
    show ghostFree c id (createRandomCircles dims (some c2) (clearContainer c2 t s) rCount ds).1
    refine ghostFree_seed dims (some c2) rCount ds ⟨?_, ?_, hlt⟩
    · simp only [clearContainer]
      by_cases hcc : c = c2
      · rw [if_pos hcc]
        intro hmem
        exact hdom (Finset.mem_sdiff.mp hmem).1
      · rw [if_neg hcc]
        exact hdom
    · intro t2 ht2
      simp only [clearContainer] at ht2
      by_cases hcc : c = c2
      · rw [if_pos hcc, Option.some_inj] at ht2
        rw [← ht2]
        simp
      · rw [if_neg hcc] at ht2
        exact hact t2 ht2

theorem ghostFree_reset_establish {c : ContainerId} {id : CircleId} {s : SysState}
    {t : Finset CircleId} (dims : ContainerId → Container) (rCount : ℚ) (ds : ℕ → SpawnDraws)
    (ht : s.active c = some t) (hid : id ∈ t) (hlt : id < s.nextId) :
    ghostFree c id (resetContainer dims c s rCount ds).1 := by
  unfold resetContainer
  rw [ht]
  show ghostFree c id (createRandomCircles dims (some c) (clearContainer c t s) rCount ds).1
  refine ghostFree_seed dims (some c) rCount ds ⟨?_, ?_, hlt⟩
  · simp only [clearContainer, eq_self_iff_true, if_true]
    intro hmem
    exact (Finset.mem_sdiff.mp hmem).2 hid
  · intro t2 ht2
    simp only [clearContainer, eq_self_iff_true, if_true, Option.some_inj] at ht2
    rw [← ht2]
    simp

theorem ghostFree_resize_pres {c : ContainerId} {id : CircleId} {s : SysState}
    (dims : ContainerId → Container) (l : List (Option ContainerId)) (rc : ContainerId → ℚ)
    (ds : ContainerId → ℕ → SpawnDraws) (h : ghostFree c id s) :
    ghostFree c id (handleResize dims l s rc ds) := by
  induction l generalizing s with
  | nil => exact h
  | cons oc rest ih =>
    cases oc with
    | none => exact ih h
    | some c2 => exact ih (ghostFree_reset dims c2 (rc c2) (ds c2) h)

theorem handleResize_ghostFree {c : ContainerId} {id : CircleId}
    (dims : ContainerId → Container) (rc : ContainerId → ℚ) (ds : ContainerId → ℕ → SpawnDraws) :
    ∀ (l : List (Option ContainerId)) (s : SysState) (t : Finset CircleId),
      (some c) ∈ l → s.active c = some t → id ∈ t → id < s.nextId →
      ghostFree c id (handleResize dims l s rc ds) := by
  intro l
  induction l with
  | nil =>
    intro s t hmem
    simp at hmem
  | cons oc rest ih =>
    intro s t hmem ht hid hlt
    by_cases hoc : oc = some c
    · subst hoc
      show ghostFree c id
        (handleResize dims rest (resetContainer dims c s (rc c) (ds c)).1 rc ds)
      exact ghostFree_resize_pres dims rest rc ds
        (ghostFree_reset_establish dims (rc c) (ds c) ht hid hlt)
    · have hmem2 : some c ∈ rest := by
        rcases List.mem_cons.mp hmem with h1 | h1
        · exact absurd h1.symm hoc
        · exact h1
      cases oc with
      | none =>
        show ghostFree c id (handleResize dims rest s rc ds)
        exact ih s t hmem2 ht hid hlt
      | some c2 =>
        have hne : c ≠ c2 := fun heq => hoc (by rw [heq])
        show ghostFree c id
          (handleResize dims rest (resetContainer dims c2 s (rc c2) (ds c2)).1 rc ds)
        refine ih _ t hmem2 ?_ hid ?_
        · rw [reset_active_untouched dims (rc c2) (ds c2) hne]
          exact ht
        · exact lt_of_lt_of_le hlt (reset_nextId_mono dims c2 (rc c2) (ds c2))

/-- C9: on a resize event, for each tracked container (one with an entry in
the active-circle map) the handler removes every circle of its active set
from the display, replaces the entry by an empty set, and reseeds
(structurally, `resetContainer` = clear then `createRandomCircles`); hence
after the whole resize pass none of the previously active circles — whose
coordinates were computed against the old container size — remains in that
container's display or active set. -/
theorem c9_resize_clears_stale {dims : ContainerId → Container} {s : SysState}
    (h : Reachable dims s) (containers : List (Option ContainerId))
    (rc : ContainerId → ℚ) (ds : ContainerId → ℕ → SpawnDraws)
    (c : ContainerId) (t : Finset CircleId) (id : CircleId)
    (hc : (some c) ∈ containers) (ht : s.active c = some t) (hid : id ∈ t) :
    id ∉ (handleResize dims containers s rc ds).dom c ∧
    (∀ t2, (handleResize dims containers s rc ds).active c = some t2 → id ∉ t2) := by
  have hlt : id < s.nextId := reachable_activeBounded h c t ht id hid
  have hg := handleResize_ghostFree dims rc ds containers s t hc ht hid hlt
  exact ⟨hg.1, hg.2.1⟩

theorem c9_resize_clears_stale_witness :
    (Reachable dims0 (createRandomCircle dims0 (some 0) initState d0).1 ∧
     (some 0) ∈ [some (0 : ContainerId)] ∧
     (createRandomCircle dims0 (some 0) initState d0).1.active 0 = some {0} ∧
     0 ∈ ({0} : Finset CircleId)) ∧
    (0 ∉ (handleResize dims0 [some 0] (createRandomCircle dims0 (some 0) initState d0).1
        (fun _ => 0) (fun _ _ => d0)).dom 0 ∧
     (∀ t2, (handleResize dims0 [some 0] (createRandomCircle dims0 (some 0) initState d0).1
        (fun _ => 0) (fun _ _ => d0)).active 0 = some t2 → 0 ∉ t2)) :=
  ⟨⟨Reachable.spawn initState (some 0) d0 Reachable.init,
    List.mem_singleton.mpr rfl,
    by simp [createRandomCircle, capReached, initState],
    Finset.mem_singleton.mpr rfl⟩,
   c9_resize_clears_stale (Reachable.spawn initState (some 0) d0 Reachable.init)
     [some 0] (fun _ => 0) (fun _ _ => d0) 0 {0} 0
     (List.mem_singleton.mpr rfl)
     (by simp [createRandomCircle, capReached, initState])
     (Finset.mem_singleton.mpr rfl)⟩

theorem activeCount_spawnLoop_pos {s : SysState} (dims : ContainerId → Container)
    (c : ContainerId) (ds : List SpawnDraws) (h : ds ≠ []) :
    1 ≤ activeCount (spawnLoop dims (some c) s ds).1 c := by
  cases ds with
  | nil => exact absurd rfl h
  | cons d rest =>
    show 1 ≤ activeCount
      (spawnLoop dims (some c) (createRandomCircle dims (some c) s d).1 rest).1 c
    exact le_trans (activeCount_spawn_pos dims c d)
      (activeCount_spawnLoop_mono dims (some c) rest c)

/-- C8: for a non-null container, `createRandomCircles` draws a count in
`[1, maxCirclesPerContainer]` and spawns that many times (one
`createRandomCircle` per element of `List.range numberOfCircles.toNat`),
each invocation re-checking the cap; starting from any state respecting the
cap, the container's active-set size afterwards lies in `[1, cap]`. -/
theorem c8_seed_count (dims : ContainerId → Container) (c : ContainerId) (s : SysState)
    (rCount : ℚ) (ds : ℕ → SpawnDraws) (h0 : 0 ≤ rCount) (h1 : rCount < 1)
    (hle : activeCount s c ≤ ANIMATION_CONFIG.maxCirclesPerContainer) :
    (1 ≤ getRandomInRange 1 (ANIMATION_CONFIG.maxCirclesPerContainer : ℤ) rCount ∧
     getRandomInRange 1 (ANIMATION_CONFIG.maxCirclesPerContainer : ℤ) rCount ≤
       (ANIMATION_CONFIG.maxCirclesPerContainer : ℤ)) ∧
    1 ≤ activeCount (createRandomCircles dims (some c) s rCount ds).1 c ∧
    activeCount (createRandomCircles dims (some c) s rCount ds).1 c ≤
      ANIMATION_CONFIG.maxCirclesPerContainer := by
  have hn := getRandomInRange_mem 1 (ANIMATION_CONFIG.maxCirclesPerContainer : ℤ) rCount
    (by simp [ANIMATION_CONFIG]) h0 h1
  refine ⟨hn, ?_, activeCount_seed_le dims (some c) rCount ds c hle⟩
  show 1 ≤ activeCount (spawnLoop dims (some c) s
    ((List.range (getRandomInRange 1 (ANIMATION_CONFIG.maxCirclesPerContainer : ℤ)
      rCount).toNat).map ds)).1 c
  refine activeCount_spawnLoop_pos dims c _ ?_
  intro hnil
  simp only [List.map_eq_nil_iff, List.range_eq_nil] at hnil
  have h11 := hn.1
  omega

theorem c8_seed_count_witness :
    (((0 : ℚ) ≤ 1/2 ∧ (1/2 : ℚ) < 1) ∧
     activeCount initState 0 ≤ ANIMATION_CONFIG.maxCirclesPerContainer) ∧
    ((1 ≤ getRandomInRange 1 (ANIMATION_CONFIG.maxCirclesPerContainer : ℤ) (1/2) ∧
      getRandomInRange 1 (ANIMATION_CONFIG.maxCirclesPerContainer : ℤ) (1/2) ≤
        (ANIMATION_CONFIG.maxCirclesPerContainer : ℤ)) ∧
     1 ≤ activeCount (createRandomCircles dims0 (some 0) initState (1/2) (fun _ => d0)).1 0 ∧
     activeCount (createRandomCircles dims0 (some 0) initState (1/2) (fun _ => d0)).1 0 ≤
       ANIMATION_CONFIG.maxCirclesPerContainer) :=
  ⟨⟨⟨by norm_num, by norm_num⟩, by simp [activeCount, initState]⟩,
   c8_seed_count dims0 0 initState (1/2) (fun _ => d0) (by norm_num) (by norm_num)
     (by simp [activeCount, initState])⟩

/-- The degenerate-dimension branch of `getRandomPosition` for a present
container handle. -/
theorem getRandomPosition_zero_dims (cont : Container) (size : ℤ) (rE rC : ℚ)
    (h : cont.clientWidth = 0 ∨ cont.clientHeight = 0) :
    getRandomPosition (some cont) size rE rC =
      (⟨0, 0⟩, [Effect.logWarn "Invalid container dimensions"]) := by
  simp [getRandomPosition, h]

/-- C10: for a non-null container with zero width or height (and the cap not
reached, so that the unrelated population guard does not fire),
`createRandomCircle` is not a no-op: a circle is created, its start and end
positions both degrade to the origin, it is added to the container's active
set (raising the population count by one) and its animation is started —
invalid geometry degrades the position only, never the spawn or the
active-set mutation. -/
theorem c10_zero_dims_spawns (dims : ContainerId → Container) (c : ContainerId) (s : SysState)
    (d : SpawnDraws)
    (hdim : (dims c).clientWidth = 0 ∨ (dims c).clientHeight = 0)
    (hcap : capReached s c = false)
    (hb : ∀ t, s.active c = some t → ∀ i ∈ t, i < s.nextId) :
    ∃ circ, (createRandomCircle dims (some c) s d).2.1 = some circ ∧
      circ.startPosition = ⟨0, 0⟩ ∧ circ.endPosition = ⟨0, 0⟩ ∧
      (∀ t, (createRandomCircle dims (some c) s d).1.active c = some t → circ.id ∈ t) ∧
      Effect.startAnimation circ.id ∈ (createRandomCircle dims (some c) s d).2.2 ∧
      activeCount (createRandomCircle dims (some c) s d).1 c = activeCount s c + 1 := by
  refine ⟨_, spawn_circle_eq dims d hcap, ?_, ?_, ?_, ?_, ?_⟩
  · show (getRandomPosition (some (dims c))
      (getRandomInRange ANIMATION_CONFIG.sizeMin ANIMATION_CONFIG.sizeMax d.rSize)
      d.rEdge1 d.rCoord1).1 = (⟨0, 0⟩ : Pos)
    rw [getRandomPosition_zero_dims _ _ _ _ hdim]
  · show (getRandomPosition (some (dims c))
      (getRandomInRange ANIMATION_CONFIG.sizeMin ANIMATION_CONFIG.sizeMax d.rSize)
      d.rEdge2 d.rCoord2).1 = (⟨0, 0⟩ : Pos)
    rw [getRandomPosition_zero_dims _ _ _ _ hdim]
  · intro t ht
    rw [spawn_active_apply dims d hcap c, if_pos rfl, Option.some_inj] at ht
    rw [← ht]
    exact Finset.mem_insert_self _ _
  · rw [spawn_trace_eq dims d hcap]
    simp
  · unfold activeCount
    rw [spawn_active_apply dims d hcap c, if_pos rfl, Option.getD_some]
    have hfresh : s.nextId ∉ (s.active c).getD ∅ := by
      cases ha : s.active c with
      | none => simp
      | some t0 =>
        rw [Option.getD_some]
        intro hmem
        exact lt_irrefl _ (hb t0 ha s.nextId hmem)
    rw [Finset.card_insert_of_not_mem hfresh]

/-- Concrete degenerate container dimensions used to instantiate the
theorems. -/
def dimsZ : ContainerId → Container := fun _ => ⟨0, 0⟩

theorem c10_zero_dims_spawns_witness :
    (((dimsZ 0).clientWidth = 0 ∨ (dimsZ 0).clientHeight = 0) ∧
     capReached initState 0 = false ∧
     (∀ t, initState.active 0 = some t → ∀ i ∈ t, i < initState.nextId)) ∧
    (∃ circ, (createRandomCircle dimsZ (some 0) initState d0).2.1 = some circ ∧
      circ.startPosition = ⟨0, 0⟩ ∧ circ.endPosition = ⟨0, 0⟩ ∧
      (∀ t, (createRandomCircle dimsZ (some 0) initState d0).1.active 0 = some t →
        circ.id ∈ t) ∧
      Effect.startAnimation circ.id ∈ (createRandomCircle dimsZ (some 0) initState d0).2.2 ∧
      activeCount (createRandomCircle dimsZ (some 0) initState d0).1 0 =
        activeCount initState 0 + 1) :=
  ⟨⟨Or.inl rfl, rfl, by simp [initState]⟩,
   c10_zero_dims_spawns dimsZ 0 initState d0 (Or.inl rfl) rfl (by simp [initState])⟩

end CircleAnim
